import Mathlib

/-!
Shallow embedding of the release-submission orchestrator (publish module):
the job status reporter (app/lib/modules/publish/status/reporter.ts), the
job model and retry helpers (queue/jobs.ts), the in-memory job queue and
worker (queue/worker.ts), and the metadata validator (metadata/validator.ts
with the zod schema from metadata/schema.ts).

Modelling conventions, used throughout:
- TypeScript numbers that hold non-negative integers (timestamps, priorities,
  version codes, retry counts) are embedded as `Nat`; the staged-rollout
  user fraction is embedded as `Rat`.
- `new Date().toISOString()` timestamps are embedded as an abstract clock
  value `now : Nat` passed to each operation; only their ordering and
  equality ever matter to the code under study.
- A JavaScript `Map` is embedded as an insertion-ordered association list
  `List (String × V)`: `get` is `find?`, `set` replaces in place when the
  key exists and appends otherwise.
- Logging calls (`logger.info` etc.) write to a global sink that no code
  under study ever reads back; they are omitted.
- Fallible asynchronous adapter calls are embedded as `Except String`
  values supplied in an environment record; `throw` is `.error msg` and a
  successful `null`-able response is `.ok (some v)` or `.ok none`.
-/

namespace Devonz

/-! ## util/logging.ts -/

/-- LogLevel enum from util/logging.ts. -/
inductive LogLevel
  | DEBUG
  | INFO
  | WARN
  | ERROR
deriving DecidableEq, Repr

/-- LogEntry interface from util/logging.ts. The structured `data` payload
is collapsed to an opaque string: the reporter stores it and formats it but
never inspects it. -/
structure LogEntry where
  timestamp : Nat
  level : LogLevel
  code : Option String
  message : String
  duration : Option Nat
deriving DecidableEq, Repr

/-- ProgressCode enum from util/logging.ts (the codes the reporter and
worker emit). -/
inductive ProgressCode
  | JOB_STARTED
  | JOB_COMPLETED
  | JOB_FAILED
  | JOB_CANCELLED
  | IOS_VALIDATION_START
  | IOS_VALIDATION_COMPLETE
  | IOS_UPLOAD_START
  | IOS_UPLOAD_COMPLETE
  | IOS_BUILD_PROCESSING
  | IOS_BUILD_PROCESSED
  | IOS_VERSION_SUBMITTED
  | IOS_REVIEW_PENDING
  | ANDROID_VALIDATION_START
  | ANDROID_VALIDATION_COMPLETE
  | ANDROID_UPLOAD_START
  | ANDROID_UPLOAD_COMPLETE
  | ANDROID_EDIT_CREATED
  | ANDROID_TRACK_ASSIGNED
  | ANDROID_RELEASE_NOTES_ADDED
  | ANDROID_EDIT_COMMITTED
  | ANDROID_ROLLOUT_STARTED
deriving DecidableEq, Repr

/-- String value of a ProgressCode (the enum members are string-valued and
equal to their names). -/
def progressCodeStr : ProgressCode → String
  | .JOB_STARTED => "JOB_STARTED"
  | .JOB_COMPLETED => "JOB_COMPLETED"
  | .JOB_FAILED => "JOB_FAILED"
  | .JOB_CANCELLED => "JOB_CANCELLED"
  | .IOS_VALIDATION_START => "IOS_VALIDATION_START"
  | .IOS_VALIDATION_COMPLETE => "IOS_VALIDATION_COMPLETE"
  | .IOS_UPLOAD_START => "IOS_UPLOAD_START"
  | .IOS_UPLOAD_COMPLETE => "IOS_UPLOAD_COMPLETE"
  | .IOS_BUILD_PROCESSING => "IOS_BUILD_PROCESSING"
  | .IOS_BUILD_PROCESSED => "IOS_BUILD_PROCESSED"
  | .IOS_VERSION_SUBMITTED => "IOS_VERSION_SUBMITTED"
  | .IOS_REVIEW_PENDING => "IOS_REVIEW_PENDING"
  | .ANDROID_VALIDATION_START => "ANDROID_VALIDATION_START"
  | .ANDROID_VALIDATION_COMPLETE => "ANDROID_VALIDATION_COMPLETE"
  | .ANDROID_UPLOAD_START => "ANDROID_UPLOAD_START"
  | .ANDROID_UPLOAD_COMPLETE => "ANDROID_UPLOAD_COMPLETE"
  | .ANDROID_EDIT_CREATED => "ANDROID_EDIT_CREATED"
  | .ANDROID_TRACK_ASSIGNED => "ANDROID_TRACK_ASSIGNED"
  | .ANDROID_RELEASE_NOTES_ADDED => "ANDROID_RELEASE_NOTES_ADDED"
  | .ANDROID_EDIT_COMMITTED => "ANDROID_EDIT_COMMITTED"
  | .ANDROID_ROLLOUT_STARTED => "ANDROID_ROLLOUT_STARTED"

/-! ## status/reporter.ts: data model -/

/-- JobStatus enum from status/reporter.ts. -/
inductive JobStatus
  | QUEUED
  | RUNNING
  | WAITING
  | SUCCEEDED
  | FAILED
  | CANCELLED
deriving DecidableEq, Repr

/-- String value of a JobStatus (string-valued enum). -/
def jobStatusStr : JobStatus → String
  | .QUEUED => "QUEUED"
  | .RUNNING => "RUNNING"
  | .WAITING => "WAITING"
  | .SUCCEEDED => "SUCCEEDED"
  | .FAILED => "FAILED"
  | .CANCELLED => "CANCELLED"

/-- Platform enum from status/reporter.ts. -/
inductive Platform
  | IOS
  | ANDROID
  | BOTH
deriving DecidableEq, Repr

/-- String value of a Platform (values ios / android / both). -/
def platformStr : Platform → String
  | .IOS => "ios"
  | .ANDROID => "android"
  | .BOTH => "both"

/-- Structured `data` payload attached to a ProgressEvent. The reporter
attaches exactly two shapes of payload (in setJobResult); all other
addProgress call sites pass either nothing or opaque context never read
back, embedded as `none`. -/
inductive ProgressData
  | completedInfo (url : Option String) (version : Option String)
  | failedInfo (errors : List String)
deriving DecidableEq, Repr

/-- JobProgress interface from status/reporter.ts. -/
structure JobProgress where
  code : ProgressCode
  message : String
  timestamp : Nat
  percentage : Option Nat
  data : Option ProgressData
deriving DecidableEq, Repr

/-- Shape of the `result` argument of JobStatusReporter.setJobResult and of
the stored PublishJob.result field. -/
structure ResultPayload where
  success : Bool
  url : Option String
  version : Option String
  errors : List String
  warnings : List String
deriving DecidableEq, Repr

/-- PublishJob interface from status/reporter.ts. The optional `metadata`
snapshot field is never read by any reporter operation and is omitted. -/
structure PublishJob where
  id : String
  platform : Platform
  status : JobStatus
  createdAt : Nat
  startedAt : Option Nat
  completedAt : Option Nat
  dryRun : Bool
  logs : List LogEntry
  progress : List JobProgress
  result : Option ResultPayload
deriving DecidableEq, Repr

/-- State of a JobStatusReporter instance: its private `jobs` Map, embedded
as an insertion-ordered association list. -/
structure ReporterState where
  jobs : List (String × PublishJob)
deriving DecidableEq, Repr

namespace JobStatusReporter

/-- Lookup in the `jobs` Map: `this.jobs.get(id)`. -/
def findJob (s : ReporterState) (id : String) : Option PublishJob :=
  (s.jobs.find? (fun e => e.1 = id)).map (fun e => e.2)

/-- Update the entry for `id` in place (JavaScript Map.set on an existing
key keeps its position; all mutations of a fetched job object act on the
stored entry by reference). -/
def setExisting (s : ReporterState) (id : String) (j : PublishJob) : ReporterState :=
  ⟨s.jobs.map (fun e => if e.1 = id then (e.1, j) else e)⟩

/-- Embeds JobStatusReporter.addProgress: append a progress event if the
job exists, otherwise return unchanged. -/
def addProgress (s : ReporterState) (id : String) (code : ProgressCode)
    (message : String) (percentage : Option Nat) (data : Option ProgressData)
    (now : Nat) : ReporterState :=
  match findJob s id with
  | none => s
  | some job =>
    setExisting s id
      { job with progress := job.progress ++
          [{ code := code, message := message, timestamp := now,
             percentage := percentage, data := data }] }

/-- Embeds JobStatusReporter.createJob: store a fresh QUEUED job and record
the JOB_STARTED progress event. -/
def createJob (s : ReporterState) (id : String) (platform : Platform)
    (dryRun : Bool) (now : Nat) : ReporterState :=
  let job : PublishJob :=
    { id := id, platform := platform, status := JobStatus.QUEUED,
      createdAt := now, startedAt := none, completedAt := none,
      dryRun := dryRun, logs := [], progress := [], result := none }
  let s :=
    if (s.jobs.find? (fun e => e.1 = id)).isSome then setExisting s id job
    else ⟨s.jobs ++ [(id, job)]⟩
  addProgress s id ProgressCode.JOB_STARTED
    ("Job " ++ id ++ " created and queued") none none now

/-- Embeds JobStatusReporter.getJob. -/
def getJob (s : ReporterState) (id : String) : Option PublishJob :=
  findJob s id

/-- Embeds JobStatusReporter.updateJobStatus: set the status, record
startedAt on the first transition to RUNNING, and record completedAt on
any transition to a terminal status. -/
def updateJobStatus (s : ReporterState) (id : String) (status : JobStatus)
    (now : Nat) : ReporterState :=
  match findJob s id with
  | none => s
  | some job =>
    let job := { job with status := status }
    let job :=
      if status = JobStatus.RUNNING ∧ job.startedAt = none then
        { job with startedAt := some now }
      else job
    let job :=
      if status = JobStatus.SUCCEEDED ∨ status = JobStatus.FAILED ∨
          status = JobStatus.CANCELLED then
        { job with completedAt := some now }
      else job
    setExisting s id job

/-- Embeds JobStatusReporter.addLog. -/
def addLog (s : ReporterState) (id : String) (log : LogEntry) : ReporterState :=
  match findJob s id with
  | none => s
  | some job => setExisting s id { job with logs := job.logs ++ [log] }

/-- Embeds JobStatusReporter.setJobResult: store the result object, then
transition to SUCCEEDED with a JOB_COMPLETED event or to FAILED with a
JOB_FAILED event. Note the source has no guard on an already-terminal job:
the stored result is overwritten unconditionally. -/
def setJobResult (s : ReporterState) (id : String) (result : ResultPayload)
    (now : Nat) : ReporterState :=
  match findJob s id with
  | none => s
  | some job =>
    let s := setExisting s id { job with result := some result }
    if result.success then
      let s := updateJobStatus s id JobStatus.SUCCEEDED now
      addProgress s id ProgressCode.JOB_COMPLETED "Job completed successfully"
        (some 100) (some (ProgressData.completedInfo result.url result.version)) now
    else
      let s := updateJobStatus s id JobStatus.FAILED now
      addProgress s id ProgressCode.JOB_FAILED "Job failed"
        none (some (ProgressData.failedInfo result.errors)) now

/-- Embeds JobStatusReporter.cancelJob: only a QUEUED, RUNNING or WAITING
job is transitioned to CANCELLED with a JOB_CANCELLED event. -/
def cancelJob (s : ReporterState) (id : String) (now : Nat) : ReporterState :=
  match findJob s id with
  | none => s
  | some job =>
    if job.status = JobStatus.RUNNING ∨ job.status = JobStatus.WAITING ∨
        job.status = JobStatus.QUEUED then
      let s := updateJobStatus s id JobStatus.CANCELLED now
      addProgress s id ProgressCode.JOB_CANCELLED "Job was cancelled" none none now
    else s

/-- Embeds JobStatusReporter.getProgressPercentage: percentage of the last
progress event, with `|| 0` collapsing both a missing entry and an absent
percentage to 0. -/
def getProgressPercentage (s : ReporterState) (id : String) : Nat :=
  match findJob s id with
  | none => 0
  | some job =>
    match job.progress.getLast? with
    | none => 0
    | some p => p.percentage.getD 0

/-- Embeds JobStatusReporter.getJobLogs: `job?.logs || []`. -/
def getJobLogs (s : ReporterState) (id : String) : List LogEntry :=
  match findJob s id with
  | none => []
  | some job => job.logs

/-- Embeds JobStatusReporter.getJobProgress: `job?.progress || []`. -/
def getJobProgress (s : ReporterState) (id : String) : List JobProgress :=
  match findJob s id with
  | none => []
  | some job => job.progress

/-- String value of a LogLevel. -/
def logLevelStr : LogLevel → String
  | .DEBUG => "DEBUG"
  | .INFO => "INFO"
  | .WARN => "WARN"
  | .ERROR => "ERROR"

/-- Embeds JobStatusReporter.exportJobLogs: a missing job exports the empty
string, otherwise a header, the progress lines and the log lines are
joined. Timestamps are printed through the abstract clock. -/
def exportJobLogs (s : ReporterState) (id : String) : String :=
  match findJob s id with
  | none => ""
  | some job =>
    let headerItems : List String :=
      [ "Job ID: " ++ job.id,
        "Platform: " ++ platformStr job.platform,
        "Status: " ++ jobStatusStr job.status,
        "Created: " ++ toString job.createdAt,
        (match job.startedAt with
         | some t => "Started: " ++ toString t
         | none => ""),
        (match job.completedAt with
         | some t => "Completed: " ++ toString t
         | none => ""),
        (if job.dryRun then "Mode: DRY RUN" else "Mode: REAL"),
        "",
        "Progress:" ]
    -- the source's .filter(Boolean) drops the empty-string items, then the
    -- (truthy) lines are joined with newlines; note it also drops the ""
    -- spacer line the array literal contains
    let header := String.intercalate "\n" (headerItems.filter (fun x => x ≠ ""))
    let progressLines := job.progress.map (fun p =>
      let percentage :=
        match p.percentage with
        | some n => " [" ++ toString n ++ "%]"
        | none => ""
      "  " ++ toString p.timestamp ++ percentage ++ " [" ++
        progressCodeStr p.code ++ "] " ++ p.message)
    let progress := String.intercalate "\n" progressLines
    let logLines := job.logs.map (fun l =>
      "  " ++ toString l.timestamp ++ " [" ++ logLevelStr l.level ++ "] " ++ l.message)
    let logs := String.intercalate "\n" ("\nLogs:" :: logLines)
    String.intercalate "\n" [header, progress, logs]

/-- Return type of JobStatusReporter.getJobSummary. -/
structure JobSummary where
  id : String
  platform : Platform
  status : JobStatus
  createdAt : Nat
  duration : Option String
  progressPercentage : Nat
  latestProgress : Option String
  errorCount : Nat
  warningCount : Nat
deriving DecidableEq, Repr

/-- Embeds JobStatusReporter.getJobSummary: none for a missing job,
otherwise the derived summary (duration in floored seconds when both
startedAt and completedAt are recorded). -/
def getJobSummary (s : ReporterState) (id : String) : Option JobSummary :=
  match findJob s id with
  | none => none
  | some job =>
    let duration : Option String :=
      match job.startedAt, job.completedAt with
      | some st, some en => some (toString ((en - st) / 1000) ++ "s")
      | _, _ => none
    some
      { id := job.id, platform := job.platform, status := job.status,
        createdAt := job.createdAt, duration := duration,
        progressPercentage := getProgressPercentage s id,
        latestProgress := (job.progress.getLast?).map (fun p => p.message),
        errorCount := (job.logs.filter (fun l => l.level = LogLevel.ERROR)).length,
        warningCount := (job.logs.filter (fun l => l.level = LogLevel.WARN)).length }

end JobStatusReporter

/-! ## queue/jobs.ts: job model and retry helpers -/

/-- JobType enum from queue/jobs.ts. -/
inductive JobType
  | IOS_SUBMIT_TESTFLIGHT_INTERNAL
  | IOS_SUBMIT_TESTFLIGHT_EXTERNAL
  | IOS_SUBMIT_APP_STORE
  | IOS_METADATA_UPDATE
  | IOS_BUILD_UPLOAD
  | ANDROID_SUBMIT_INTERNAL
  | ANDROID_SUBMIT_ALPHA
  | ANDROID_SUBMIT_BETA
  | ANDROID_SUBMIT_PRODUCTION
  | ANDROID_METADATA_UPDATE
  | ANDROID_BUILD_UPLOAD
  | ANDROID_ROLLOUT_EXPAND
  | ANDROID_ROLLOUT_HALT
  | ANDROID_ROLLBACK
  | VALIDATE_METADATA
  | NORMALIZE_ASSETS
  | PREFLIGHT_CHECK
deriving DecidableEq, Repr

/-- JobPriority enum values from queue/jobs.ts (LOW = 0, NORMAL = 1,
HIGH = 2, CRITICAL = 3); the queue compares them numerically, so they are
embedded as their numeric values. -/
def JobPriority.LOW : Nat := 0

/-- JobPriority.NORMAL numeric value. -/
def JobPriority.NORMAL : Nat := 1

/-- JobPriority.HIGH numeric value. -/
def JobPriority.HIGH : Nat := 2

/-- JobPriority.CRITICAL numeric value. -/
def JobPriority.CRITICAL : Nat := 3

/-- JobDefinition interface from queue/jobs.ts. The type-specific `data`
payload and opaque `result` are embedded as opaque strings (the worker
forwards them without inspecting their structure at this level). -/
structure JobDefinition where
  id : String
  type : JobType
  platform : Platform
  priority : Nat
  status : JobStatus
  createdAt : Nat
  scheduledAt : Option Nat
  startedAt : Option Nat
  completedAt : Option Nat
  retryCount : Nat
  maxRetries : Nat
  dryRun : Bool
  error : Option String
  result : Option String
deriving DecidableEq, Repr

/-- Embeds createJob from queue/jobs.ts (the factory): a fresh QUEUED job
with retryCount 0 and the supplied options (defaults NORMAL priority,
maxRetries 3, dryRun true). The uuid and data payload are parameters. -/
def createJobDef (id : String) (type : JobType) (platform : Platform)
    (priority : Option Nat) (dryRun : Option Bool) (maxRetries : Option Nat)
    (scheduledAt : Option Nat) (now : Nat) : JobDefinition :=
  { id := id, type := type, platform := platform,
    priority := priority.getD JobPriority.NORMAL,
    status := JobStatus.QUEUED, createdAt := now, scheduledAt := scheduledAt,
    startedAt := none, completedAt := none, retryCount := 0,
    maxRetries := maxRetries.getD 3, dryRun := dryRun.getD true,
    error := none, result := none }

/-- Embeds shouldRetryJob from queue/jobs.ts: retry while the retry budget
remains and the job is FAILED. -/
def shouldRetryJob (job : JobDefinition) : Bool :=
  job.retryCount < job.maxRetries && job.status = JobStatus.FAILED

/-- Embeds calculateRetryDelay from queue/jobs.ts: exponential backoff
`baseDelay * 2 ^ retryCount` (the source default for baseDelay is 1000). -/
def calculateRetryDelay (retryCount : Nat) (baseDelay : Nat) : Nat :=
  baseDelay * 2 ^ retryCount

/-- JobResult wrapper from queue/jobs.ts (`data` kept opaque). -/
structure JobResult where
  success : Bool
  data : Option String
  error : Option String
  warnings : List String
deriving DecidableEq, Repr

/-! ## queue/worker.ts: JobQueue -/

namespace JobQueue

/-- Queue entry: a job together with a ghost sequence tag recording the
order of enqueue calls. The tag is a proof artifact used to state
stability; the embedded operations never consult it. -/
abbrev Entry := Nat × JobDefinition

/-- Stable insertion of an element into an (already sorted) suffix, the
inner step of insertion sort: the element is placed before the first entry
whose priority is less than or equal to its own, so it precedes every
equal-priority entry that occurred later in the input list. -/
def insertJob (p : Entry) : List Entry → List Entry
  | [] => [p]
  | q :: qs =>
    if q.2.priority ≤ p.2.priority then p :: q :: qs else q :: insertJob p qs

/-- Embeds `this.queue.sort((a, b) => b.priority - a.priority)`: a stable
sort by descending numeric priority (Array.prototype.sort is guaranteed
stable by ECMAScript; any stable sort for the same comparator computes the
same list, here realized as an insertion sort). -/
def sortByPriority : List Entry → List Entry
  | [] => []
  | p :: ps => insertJob p (sortByPriority ps)

/-- State of the JobQueue instance from queue/worker.ts (the private
`queue` array plus the ghost tag counter). -/
structure QState where
  queue : List Entry
  nextTag : Nat
deriving DecidableEq, Repr

/-- Embeds JobQueue.enqueue: push the job, then sort the array by
descending priority. -/
def enqueue (s : QState) (j : JobDefinition) : QState :=
  { queue := sortByPriority (s.queue ++ [(s.nextTag, j)]),
    nextTag := s.nextTag + 1 }

/-- Embeds JobQueue.dequeue: `this.queue.shift()`, returning the removed
front entry (undefined on an empty queue). -/
def dequeue (s : QState) : QState × Option Entry :=
  match s.queue with
  | [] => (s, none)
  | x :: xs => ({ s with queue := xs }, some x)

/-- Embeds JobQueue.length. -/
def length (s : QState) : Nat := s.queue.length

/-- Embeds JobQueue.getJobsByType. -/
def getJobsByType (s : QState) (t : JobType) : List JobDefinition :=
  (s.queue.filter (fun e => e.2.type = t)).map (fun e => e.2)

/-- One external queue operation. -/
inductive QOp
  | enq (j : JobDefinition)
  | deq
deriving Repr

/-- Apply one queue operation. -/
def stepQ (s : QState) : QOp → QState
  | .enq j => enqueue s j
  | .deq => (dequeue s).1

/-- Run a sequence of queue operations from the initial empty queue. -/
def runQ (ops : List QOp) : QState :=
  ops.foldl stepQ ⟨[], 0⟩

/-- Ordering invariant of the queue array: entry a may precede entry b
only when a has strictly higher priority, or equal priority and an earlier
enqueue tag. -/
def rlex (a b : Entry) : Prop :=
  b.2.priority < a.2.priority ∨ (b.2.priority = a.2.priority ∧ a.1 < b.1)

/-- Invariant of a reachable queue state: the array is ordered by `rlex`
and every stored tag predates the counter. -/
def QInv (s : QState) : Prop :=
  s.queue.Pairwise rlex ∧ ∀ p ∈ s.queue, p.1 < s.nextTag

end JobQueue

/-! ## queue/worker.ts: JobWorker

The worker's per-job execution is asynchronous only through awaited adapter
calls; its control flow is embedded as a total function over an explicit
state. The type-specific processor invoked by the `switch` in processJob is
abstracted by its observable behaviour: the progress events it emits before
finishing and its outcome (a returned JobResult or a thrown error). -/

/-- Observations of the AbortController signal at the two points where
processJob reads `signal.aborted`: on entry (line guarding the whole
attempt) and inside the catch handler. -/
structure AbortSignal where
  abortedAtStart : Bool
  abortedInCatch : Bool
deriving DecidableEq, Repr

/-- Outcome of the type-specific `switch` body inside
JobWorker.processJob: either a JobResult was returned or an error was
thrown (adapter failure or unknown job type). -/
inductive BodyOutcome
  | returns (r : JobResult)
  | throws (msg : String)
deriving DecidableEq, Repr

/-- State owned by a JobWorker instance: its JobQueue, the active-job map
(keyed by job id), the reporter singleton it mutates, the per-type counters
and the retry timers scheduled by setTimeout in the catch handler (each a
delay paired with the job to re-enqueue). -/
structure WorkerState where
  queue : JobQueue.QState
  activeJobs : List String
  reporter : ReporterState
  jobCounters : List (JobType × Nat)
  pendingRetries : List (Nat × JobDefinition)
deriving DecidableEq, Repr

namespace JobWorker

/-- Embeds JobQueue.incrementJobCounter (called from processJob). -/
def incrementJobCounter (cs : List (JobType × Nat)) (t : JobType) :
    List (JobType × Nat) :=
  match cs.find? (fun e => e.1 = t) with
  | none => cs ++ [(t, 1)]
  | some _ => cs.map (fun e => if e.1 = t then (e.1, e.2 + 1) else e)

/-- Embeds JobWorker.submitJob: enqueue the job and register it with the
status reporter. -/
def submitJob (st : WorkerState) (job : JobDefinition) (now : Nat) : WorkerState :=
  { st with
    queue := JobQueue.enqueue st.queue job
    reporter := JobStatusReporter.createJob st.reporter job.id job.platform job.dryRun now }

/-- Embeds the tail of JobWorker.processJob after the `switch` produced a
JobResult (source lines 253-277): on success mark the job SUCCEEDED and
report a successful result; on failure mark it FAILED, record the error
string and report a failed result; finally bump the per-type counter. -/
def finishJob (st : WorkerState) (job : JobDefinition) (result : JobResult)
    (now : Nat) : WorkerState × JobDefinition :=
  if result.success then
    let job := { job with
      status := JobStatus.SUCCEEDED
      completedAt := some now
      result := result.data }
    let payload : ResultPayload :=
      { success := true, url := result.data, version := none,
        errors := [], warnings := result.warnings }
    let st := { st with
      reporter := JobStatusReporter.setJobResult st.reporter job.id payload now
      jobCounters := incrementJobCounter st.jobCounters job.type }
    (st, job)
  else
    let job := { job with
      status := JobStatus.FAILED
      completedAt := some now
      error := result.error }
    let payload : ResultPayload :=
      { success := false, url := none, version := none,
        errors := (match result.error with | some e => [e] | none => []),
        warnings := result.warnings }
    let st := { st with
      reporter := JobStatusReporter.setJobResult st.reporter job.id payload now
      jobCounters := incrementJobCounter st.jobCounters job.type }
    (st, job)

/-- Embeds JobWorker.processJob. Every path returns normally: the only
statements of the source body that can throw are inside its try block,
whose catch either returns (cancellation) or converts the error into a
failed JobResult. In particular the caller's catch handler (see
`processJobCatch`) can never observe an exception from this function. -/
def processJob (st : WorkerState) (job : JobDefinition) (sig : AbortSignal)
    (emitted : List (ProgressCode × String × Option Nat))
    (outcome : BodyOutcome) (now : Nat) : WorkerState × JobDefinition :=
  if sig.abortedAtStart then
    (st, { job with status := JobStatus.CANCELLED })
  else
    let job := { job with status := JobStatus.RUNNING, startedAt := some now }
    let rep1 := JobStatusReporter.updateJobStatus st.reporter job.id JobStatus.RUNNING now
    let rep2 := emitted.foldl
      (fun r e => JobStatusReporter.addProgress r job.id e.1 e.2.1 e.2.2 none now) rep1
    let st := { st with reporter := rep2 }
    match outcome with
    | .throws msg =>
      if sig.abortedInCatch then
        (st, { job with status := JobStatus.CANCELLED })
      else
        finishJob st job
          { success := false, data := none, error := some msg, warnings := [] } now
    | .returns result => finishJob st job result now

/-- Embeds the catch handler of JobWorker.processNextJob (source lines
173-192). It runs only when `await this.processJob(...)` rejects; because
the embedded processJob is total and never throws, no reachable execution
enters it — it is embedded separately so its retry policy can be examined.
On shouldRetryJob: increment retryCount and schedule (via setTimeout) a
re-enqueue with status reset to QUEUED after calculateRetryDelay of the
incremented count; otherwise mark FAILED and report the failed result. -/
def processJobCatch (st : WorkerState) (job : JobDefinition) (errMsg : String)
    (now : Nat) : WorkerState × JobDefinition :=
  if shouldRetryJob job then
    let job := { job with retryCount := job.retryCount + 1 }
    let delay := calculateRetryDelay job.retryCount 1000
    ({ st with pendingRetries := st.pendingRetries ++ [(delay, job)] }, job)
  else
    let job := { job with status := JobStatus.FAILED }
    let payload : ResultPayload :=
      { success := false, url := none, version := none,
        errors := [errMsg], warnings := [] }
    let rep := JobStatusReporter.setJobResult st.reporter job.id payload now
    ({ st with reporter := rep }, job)

/-- Embeds the setTimeout callback scheduled by the retry branch: set the
job's status back to QUEUED and enqueue it. -/
def firePendingRetry (st : WorkerState) (job : JobDefinition) : WorkerState :=
  let job := { job with status := JobStatus.QUEUED }
  { st with
    queue := JobQueue.enqueue st.queue job
    pendingRetries := st.pendingRetries.drop 1 }

/-- Embeds JobWorker.processNextJob for a started worker: dequeue the next
job (no-op when empty), register the abort controller, run processJob and
unregister in the finally block. The processed job record is returned for
observation. Because the embedded processJob never throws, the catch
handler is not invoked on any path. -/
def processNextJob (st : WorkerState) (sig : AbortSignal)
    (emitted : List (ProgressCode × String × Option Nat))
    (outcome : BodyOutcome) (now : Nat) : WorkerState × Option JobDefinition :=
  match JobQueue.dequeue st.queue with
  | (_, none) => (st, none)
  | (q, some entry) =>
    let job := entry.2
    let st := { st with queue := q, activeJobs := job.id :: st.activeJobs }
    let (st, job) := processJob st job sig emitted outcome now
    ({ st with activeJobs := st.activeJobs.erase job.id }, some job)

end JobWorker

/-- Every assignment the worker performs on a single job record, one
constructor per mutation site in queue/worker.ts: the two cancellation
returns in processJob (lines 203, 246), marking RUNNING with startedAt
(lines 207-208), the success and failure completions (lines 256-258,
266-268), and in the catch handler the guarded retryCount increment (lines
176-177), the delayed requeue callback (line 182) and the terminal failure
(line 186). -/
inductive JobMutation : JobDefinition → JobDefinition → Prop
  | cancelAtStart (j : JobDefinition) :
      JobMutation j { j with status := JobStatus.CANCELLED }
  | markRunning (j : JobDefinition) (now : Nat) :
      JobMutation j { j with status := JobStatus.RUNNING, startedAt := some now }
  | cancelInCatch (j : JobDefinition) :
      JobMutation j { j with status := JobStatus.CANCELLED }
  | succeed (j : JobDefinition) (now : Nat) (data : Option String) :
      JobMutation j
        { j with status := JobStatus.SUCCEEDED, completedAt := some now, result := data }
  | fail (j : JobDefinition) (now : Nat) (err : Option String) :
      JobMutation j
        { j with status := JobStatus.FAILED, completedAt := some now, error := err }
  | catchRetry (j : JobDefinition) (h : shouldRetryJob j = true) :
      JobMutation j { j with retryCount := j.retryCount + 1 }
  | retryRequeue (j : JobDefinition) :
      JobMutation j { j with status := JobStatus.QUEUED }
  | catchFail (j : JobDefinition) (h : shouldRetryJob j = false) :
      JobMutation j { j with status := JobStatus.FAILED }

/-! ## metadata/schema.ts: the typed StoreMetadata document

The zod schema's inferred type is embedded as Lean structures; enumerated
fields become inductives (their membership checks can then never fail and
are not re-checked), while the runtime refinements on strings, numbers and
array lengths are re-checked by `schemaIssues` below, mirroring
`storeSchema.parse`. -/

/-- Export compliance block of the iOS schema. -/
structure ExportCompliance where
  usesEncryption : Bool
  isExempt : Bool
  encryptionAlgorithms : Option (List String)
  hasThirdPartyEncryption : Option Bool
deriving DecidableEq, Repr

/-- Review information block of the iOS schema. -/
structure ReviewInformation where
  contactFirstName : String
  contactLastName : String
  contactEmail : String
  contactPhone : String
  demoUser : Option String
  demoPassword : Option String
  notes : Option String
deriving DecidableEq, Repr

/-- App information block of the iOS schema. -/
structure AppInformation where
  subtitle : Option String
  promotionalText : Option String
  description : String
  keywords : List String
  privacyPolicyUrl : String
  supportUrl : String
  marketingUrl : Option String
deriving DecidableEq, Repr

/-- Screenshot sets of the iOS schema. -/
structure IOSScreenshots where
  iphone67 : List String
  iphone65 : Option (List String)
  iphone55 : Option (List String)
  ipad129 : List String
  ipadPro3Gen : Option (List String)
deriving DecidableEq, Repr

/-- Release type enum of the iOS schema. -/
inductive ReleaseType
  | testflightInternal
  | testflightExternal
  | appStore
deriving DecidableEq, Repr

/-- Age rating enum of the iOS schema. -/
inductive AgeRating
  | age4Plus
  | age9Plus
  | age12Plus
  | age17Plus
deriving DecidableEq, Repr

/-- iOS platform document of the store schema. -/
structure IOSMetadata where
  bundleId : String
  version : String
  buildNumber : String
  releaseType : ReleaseType
  releaseNotes : String
  exportCompliance : ExportCompliance
  reviewInformation : ReviewInformation
  appInformation : AppInformation
  screenshots : IOSScreenshots
  appIcon : String
  ageRating : AgeRating
  signInRequired : Bool
deriving DecidableEq, Repr

/-- Collected/shared data item of the Android data-safety schema. -/
structure ContentRatingData where
  type : String
  purpose : List String
  optional : Option Bool
deriving DecidableEq, Repr

/-- Content rating block of the Android schema (all enumerated fields,
embedded as their string values; membership is type-level). -/
structure ContentRating where
  category : String
  alcoholTobacco : String
  drugs : String
  gambling : String
deriving DecidableEq, Repr

/-- Data safety block of the Android schema. -/
structure DataSafety where
  collectsData : Bool
  sharedData : Option (List ContentRatingData)
  collectedData : List ContentRatingData
deriving DecidableEq, Repr

/-- Graphics block of the Android schema. -/
structure AndroidGraphics where
  icon : String
  featureGraphic : String
  promoGraphic : Option String
  tvBanner : Option String
deriving DecidableEq, Repr

/-- Screenshot sets of the Android schema. -/
structure AndroidScreenshots where
  phone : List String
  sevenInch : Option (List String)
  tenInch : Option (List String)
  tv : Option (List String)
  wear : Option (List String)
deriving DecidableEq, Repr

/-- Store listing block of the Android schema. -/
structure AndroidListing where
  title : String
  shortDescription : String
  fullDescription : String
  privacyPolicyUrl : String
  videoUrl : Option String
deriving DecidableEq, Repr

/-- Release track enum of the Android schema. -/
inductive Track
  | internal
  | alpha
  | beta
  | production
deriving DecidableEq, Repr

/-- String value of a Track. -/
def trackStr : Track → String
  | .internal => "internal"
  | .alpha => "alpha"
  | .beta => "beta"
  | .production => "production"

/-- Android platform document of the store schema. -/
structure AndroidMetadata where
  packageName : String
  versionName : String
  versionCode : Nat
  track : Track
  userFraction : Option Rat
  changelogs : List (String × String)
  listing : AndroidListing
  graphics : AndroidGraphics
  screenshots : AndroidScreenshots
  contentRating : ContentRating
  dataSafety : DataSafety
deriving DecidableEq, Repr

/-- Root store metadata document. -/
structure StoreMetadata where
  ios : IOSMetadata
  android : AndroidMetadata
deriving DecidableEq, Repr

/-! ## metadata/validator.ts -/

/-- Severity of a validation error entry. -/
inductive Severity
  | error
  | warning
deriving DecidableEq, Repr

/-- One entry of ValidationResult.errors. -/
structure FieldError where
  field : String
  message : String
  severity : Severity
deriving DecidableEq, Repr

/-- One entry of ValidationResult.warnings. -/
structure FieldWarning where
  field : String
  message : String
deriving DecidableEq, Repr

/-- ValidationResult interface from metadata/validator.ts. -/
structure ValidationResult where
  valid : Bool
  errors : List FieldError
  warnings : List FieldWarning
deriving DecidableEq, Repr

/-- VersionValidationResult (iOS) from metadata/validator.ts. -/
structure VersionValidationResult where
  valid : Bool
  errors : List FieldError
  warnings : List FieldWarning
  lastVersion : Option String
  lastBuildNumber : Option String
  suggestedBuildNumber : Option String
deriving DecidableEq, Repr

/-- AndroidVersionValidationResult from metadata/validator.ts. -/
structure AndroidVersionValidationResult where
  valid : Bool
  errors : List FieldError
  warnings : List FieldWarning
  lastVersionCode : Option Nat
  suggestedVersionCode : Option Nat
deriving DecidableEq, Repr

/-- Split a character list at every occurrence of the separator, the
JavaScript `String.prototype.split` semantics on one-character separators
(the empty string splits to one empty group). -/
def splitChar (sep : Char) : List Char → List (List Char)
  | [] => [[]]
  | c :: cs =>
    match splitChar sep cs with
    | [] => if c = sep then [[], []] else [[c]]
    | g :: gs => if c = sep then [] :: g :: gs else (c :: g) :: gs

/-- Embeds `s.split(sep)` for a one-character separator. -/
def splitOnC (s : String) (sep : Char) : List String :=
  (splitChar sep s.toList).map (fun l => String.mk l)

/-- Value of a list of decimal digits. -/
def digitsToNat (l : List Char) : Nat :=
  l.foldl (fun acc c => acc * 10 + (c.toNat - 48)) 0

/-- Embeds JavaScript `parseInt(s, 10)` for the strings that occur here:
the longest leading run of decimal digits, `none` standing for NaN when
there is none. -/
def parseIntJS (s : String) : Option Nat :=
  let ds := s.toList.takeWhile (fun c => c.isDigit)
  if ds.isEmpty then none else some (digitsToNat ds)

/-- Embeds JavaScript `Number(seg)` on a version segment: the empty string
converts to 0, a run of digits to its value, anything else to NaN
(`none`). -/
def numJS (s : String) : Option Nat :=
  if s = "" then some 0
  else if s.toList.all (fun c => c.isDigit) then some (digitsToNat s.toList)
  else none

/-- JavaScript `<` on possibly-NaN numbers: any comparison with NaN is
false. -/
def ltN : Option Nat → Option Nat → Bool
  | some a, some b => a < b
  | _, _ => false

/-- JavaScript `===` on possibly-NaN numbers: NaN equals nothing. -/
def eqN : Option Nat → Option Nat → Bool
  | some a, some b => a = b
  | _, _ => false

/-- Element i of the mapped `version.split('.').map(Number)` array;
an out-of-range destructured element is undefined, whose comparisons are
also all false, so it is conflated with NaN. -/
def segNum (parts : List String) (i : Nat) : Option Nat :=
  (parts.get? i).bind numJS

/-- Embeds the version-decrease test of validateIOSVersioning (lines
84-87): `major < lastMajor || (major === lastMajor && minor < lastMinor)`
over the dot-split segments converted by Number. -/
def versionDecrease (version lastVersion : String) : Bool :=
  let p := splitOnC version (Char.ofNat 46)
  let q := splitOnC lastVersion (Char.ofNat 46)
  ltN (segNum p 0) (segNum q 0) ||
    (eqN (segNum p 0) (segNum q 0) && ltN (segNum p 1) (segNum q 1))

/-- JavaScript string truthiness of a nullable string. -/
def strTruthy : Option String → Bool
  | some s => s ≠ ""
  | none => false

/-- Embeds `lastBuildNumber || '0'`. -/
def orZeroStr : Option String → String
  | some s => if s = "" then "0" else s
  | none => "0"

/-- Template-literal rendering of a nullable string (null prints as
"null"). -/
def showNullable : Option String → String
  | some s => s
  | none => "null"

/-- Template-literal rendering of a parsed number (NaN prints as "NaN"). -/
def showNum : Option Nat → String
  | some n => toString n
  | none => "NaN"

/-- Stand-in for redactSecrets from secrets/vault.ts. The source rewrites
secret-looking substrings via regular expressions; no claim under study
inspects redacted text, so the rewriting itself is not modelled and the
message is passed through. -/
def redactSecrets (message : String) : String := message

/-- Embeds validateIOSVersioning from metadata/validator.ts. The two
App Store Connect lookups performed inside its try block are supplied as
`Except` values: `.error` plays the rejected promise handled by the catch
block, `.ok none` a null response. -/
def validateIOSVersioning (version buildNumber : String) (dryRun : Bool)
    (envLastVersion envLastBuildNumber : Except String (Option String)) :
    VersionValidationResult :=
  let caught : String → VersionValidationResult := fun msg =>
    if dryRun then
      { valid := true, errors := [],
        warnings := [⟨"ios",
          "Dry run: Skipping App Store Connect version check - " ++ redactSecrets msg⟩],
        lastVersion := none, lastBuildNumber := none, suggestedBuildNumber := none }
    else
      { valid := false,
        errors := [⟨"ios", "Failed to validate iOS versioning: " ++ redactSecrets msg,
          Severity.error⟩],
        warnings := [], lastVersion := none, lastBuildNumber := none,
        suggestedBuildNumber := none }
  match envLastVersion with
  | .error msg => caught msg
  | .ok lastVersion =>
    match envLastBuildNumber with
    | .error msg => caught msg
    | .ok lastBuildNumber =>
      let buildCheck :=
        if strTruthy lastVersion ∧ some version = lastVersion then
          let currentBuildNum := parseIntJS buildNumber
          let lastBuildNum := parseIntJS (orZeroStr lastBuildNumber)
          match currentBuildNum, lastBuildNum with
          | some c, some l =>
            if c ≤ l then
              some (⟨"ios.buildNumber",
                "Build number must increase. Last build number was " ++
                  showNullable lastBuildNumber ++ ", new is " ++ toString c,
                Severity.error⟩, toString (l + 1))
            else none
          | _, _ => none
        else none
      let decreaseEntry :=
        match lastVersion with
        | some lv =>
          if lv ≠ "" ∧ versionDecrease version lv then
            [(⟨"ios.version",
              "Version number should not decrease. Last version was " ++ lv ++
                ", new is " ++ version, Severity.warning⟩ : FieldError)]
          else []
        | none => []
      match buildCheck with
      | some (err, suggested) =>
        { valid := false, errors := [err] ++ decreaseEntry, warnings := [],
          lastVersion := lastVersion, lastBuildNumber := lastBuildNumber,
          suggestedBuildNumber := some suggested }
      | none =>
        { valid := true, errors := decreaseEntry, warnings := [],
          lastVersion := lastVersion, lastBuildNumber := lastBuildNumber,
          suggestedBuildNumber := none }

/-- Embeds validateAndroidVersioning from metadata/validator.ts. The
Google Play last-version-code lookup is supplied as an `Except` value; note
the guard `lastVersionCode && versionCode <= lastVersionCode` treats both a
null and a 0 response as falsy. -/
def validateAndroidVersioning (versionCode : Nat) (dryRun : Bool)
    (envLastVersionCode : Except String (Option Nat)) :
    AndroidVersionValidationResult :=
  match envLastVersionCode with
  | .error msg =>
    if dryRun then
      { valid := true, errors := [],
        warnings := [⟨"android",
          "Dry run: Skipping Google Play version check - " ++ redactSecrets msg⟩],
        lastVersionCode := none, suggestedVersionCode := none }
    else
      { valid := false,
        errors := [⟨"android", "Failed to validate Android versioning: " ++
          redactSecrets msg, Severity.error⟩],
        warnings := [], lastVersionCode := none, suggestedVersionCode := none }
  | .ok lastVersionCode =>
    match lastVersionCode with
    | some l =>
      if l ≠ 0 ∧ versionCode ≤ l then
        { valid := false,
          errors := [⟨"android.versionCode",
            "Version code must be strictly increasing. Last version code was " ++
              toString l ++ ", new is " ++ toString versionCode, Severity.error⟩],
          warnings := [], lastVersionCode := some l,
          suggestedVersionCode := some (l + 1) }
      else
        { valid := true, errors := [], warnings := [],
          lastVersionCode := some l, suggestedVersionCode := none }
    | none =>
      { valid := true, errors := [], warnings := [],
        lastVersionCode := none, suggestedVersionCode := none }

/-- Digit-string test, embedding the regex `^\d+$` (buildNumber). -/
def isDigitStr (s : String) : Bool :=
  s ≠ "" && s.toList.all (fun c => c.isDigit)

/-- Version-string test, embedding the regex `^\d+\.\d+(\.\d+)?$`. -/
def versionFormat (s : String) : Bool :=
  let ps := splitOnC s (Char.ofNat 46)
  (ps.length = 2 || ps.length = 3) && ps.all isDigitStr

/-- Bundle-id test, embedding the regex `^[a-z0-9]+(\.[a-z0-9]+)+$`. -/
def bundleIdFormat (s : String) : Bool :=
  let ps := splitOnC s (Char.ofNat 46)
  2 ≤ ps.length && ps.all (fun p => p ≠ "" && p.toList.all (fun c => c.isLower || c.isDigit))

/-- Package-name test, embedding `^[a-z][a-z0-9_]*(\.[a-z][a-z0-9_]*)+$`. -/
def packageNameFormat (s : String) : Bool :=
  let seg : String → Bool := fun p =>
    match p.toList with
    | [] => false
    | c :: rest => c.isLower && rest.all (fun d => d.isLower || d.isDigit || d = Char.ofNat 95)
  let ps := splitOnC s (Char.ofNat 46)
  2 ≤ ps.length && ps.all seg

/-- Conservative embedding of `z.string().email()`: one at-sign separating
a non-empty local part from a dotted non-empty domain. The zod refinement
is a more elaborate regular expression; every concrete string this
development evaluates is classified identically by both. -/
def isEmail (s : String) : Bool :=
  match splitOnC s (Char.ofNat 64) with
  | [l, d] => l ≠ "" && d ≠ "" && d.toList.contains (Char.ofNat 46)
  | _ => false

/-- Conservative embedding of `z.string().url()` (a WHATWG URL parse in
zod): an http or https scheme followed by a non-empty remainder. Every
concrete string this development evaluates is classified identically by
both. -/
def isUrl (s : String) : Bool :=
  (List.isPrefixOf "http://".toList s.toList && s.length > 7) ||
    (List.isPrefixOf "https://".toList s.toList && s.length > 8)

/-- Helper producing a single schema issue when a check fails. -/
def schemaCheck (ok : Bool) (field message : String) : List FieldError :=
  if ok then [] else [⟨field, message, Severity.error⟩]

/-- Helper applying a length-bound check to an optional array field (zod
`.optional()`: absent passes). -/
def schemaCheckOpt (o : Option (List String)) (lo hi : Nat) (field message : String) :
    List FieldError :=
  match o with
  | none => []
  | some l => schemaCheck (lo ≤ l.length && l.length ≤ hi) field message

/-- Helper for optional string refinements. -/
def schemaCheckOptStr (o : Option String) (ok : String → Bool) (field message : String) :
    List FieldError :=
  match o with
  | none => []
  | some s => schemaCheck (ok s) field message

/-- Issues raised by `storeSchema.parse` on a typed document, embedding
every runtime refinement of metadata/schema.ts in declaration order (the
enumerated and boolean fields are typed and cannot fail). -/
def schemaIssues (m : StoreMetadata) : List FieldError :=
  schemaCheck (bundleIdFormat m.ios.bundleId) "ios.bundleId" "Invalid bundle ID format" ++
  schemaCheck (versionFormat m.ios.version) "ios.version"
    "Version must be in format X.Y or X.Y.Z" ++
  schemaCheck (isDigitStr m.ios.buildNumber) "ios.buildNumber"
    "Build number must be a positive integer" ++
  schemaCheck (1 ≤ m.ios.releaseNotes.length) "ios.releaseNotes"
    "Release notes are required" ++
  schemaCheck (1 ≤ m.ios.reviewInformation.contactFirstName.length)
    "ios.reviewInformation.contactFirstName" "Contact first name is required" ++
  schemaCheck (1 ≤ m.ios.reviewInformation.contactLastName.length)
    "ios.reviewInformation.contactLastName" "Contact last name is required" ++
  schemaCheck (isEmail m.ios.reviewInformation.contactEmail)
    "ios.reviewInformation.contactEmail" "Invalid contact email" ++
  schemaCheck (10 ≤ m.ios.reviewInformation.contactPhone.length)
    "ios.reviewInformation.contactPhone" "Contact phone is required" ++
  schemaCheckOptStr m.ios.appInformation.subtitle (fun s => s.length ≤ 30)
    "ios.appInformation.subtitle" "String must contain at most 30 characters" ++
  schemaCheckOptStr m.ios.appInformation.promotionalText (fun s => s.length ≤ 170)
    "ios.appInformation.promotionalText" "String must contain at most 170 characters" ++
  schemaCheck (10 ≤ m.ios.appInformation.description.length)
    "ios.appInformation.description"
    "Description is required and must be at least 10 characters" ++
  schemaCheck (1 ≤ m.ios.appInformation.keywords.length)
    "ios.appInformation.keywords" "At least one keyword is required" ++
  schemaCheck (m.ios.appInformation.keywords.length ≤ 100)
    "ios.appInformation.keywords" "Array must contain at most 100 elements" ++
  schemaCheck (isUrl m.ios.appInformation.privacyPolicyUrl)
    "ios.appInformation.privacyPolicyUrl" "Invalid privacy policy URL" ++
  schemaCheck (isUrl m.ios.appInformation.supportUrl)
    "ios.appInformation.supportUrl" "Invalid support URL" ++
  schemaCheckOptStr m.ios.appInformation.marketingUrl isUrl
    "ios.appInformation.marketingUrl" "Invalid url" ++
  schemaCheck (3 ≤ m.ios.screenshots.iphone67.length &&
      m.ios.screenshots.iphone67.length ≤ 10)
    "ios.screenshots.iphone67" "iPhone 6.7 inch requires at least 3 screenshots" ++
  schemaCheckOpt m.ios.screenshots.iphone65 3 10
    "ios.screenshots.iphone65" "iPhone 6.5 inch requires at least 3 screenshots" ++
  schemaCheckOpt m.ios.screenshots.iphone55 3 10
    "ios.screenshots.iphone55" "iPhone 5.5 inch requires at least 3 screenshots" ++
  schemaCheck (3 ≤ m.ios.screenshots.ipad129.length &&
      m.ios.screenshots.ipad129.length ≤ 10)
    "ios.screenshots.ipad129" "iPad 12.9 inch requires at least 3 screenshots" ++
  schemaCheckOpt m.ios.screenshots.ipadPro3Gen 3 10
    "ios.screenshots.ipadPro3Gen" "iPad Pro 3rd Gen requires at least 3 screenshots" ++
  schemaCheck (1 ≤ m.ios.appIcon.length) "ios.appIcon" "App icon path is required" ++
  schemaCheck (packageNameFormat m.android.packageName)
    "android.packageName" "Invalid package name format" ++
  schemaCheck (versionFormat m.android.versionName)
    "android.versionName" "Version name must be in format X.Y or X.Y.Z" ++
  schemaCheck (0 < m.android.versionCode)
    "android.versionCode" "Version code must be a positive integer" ++
  (match m.android.userFraction with
   | none => []
   | some f => schemaCheck (0 ≤ f && f ≤ 1) "android.userFraction"
       "Number must be between 0 and 1") ++
  (m.android.changelogs.foldr (fun e acc =>
    schemaCheck (1 ≤ e.2.length) ("android.changelogs." ++ e.1)
      "Changelog is required" ++ acc) []) ++
  schemaCheck (1 ≤ m.android.listing.title.length && m.android.listing.title.length ≤ 30)
    "android.listing.title" "Title is required" ++
  schemaCheck (80 ≤ m.android.listing.shortDescription.length &&
      m.android.listing.shortDescription.length ≤ 80)
    "android.listing.shortDescription" "Short description must be at least 80 characters" ++
  schemaCheck (1 ≤ m.android.listing.fullDescription.length &&
      m.android.listing.fullDescription.length ≤ 4000)
    "android.listing.fullDescription" "Full description is required" ++
  schemaCheck (isUrl m.android.listing.privacyPolicyUrl)
    "android.listing.privacyPolicyUrl" "Invalid privacy policy URL" ++
  schemaCheckOptStr m.android.listing.videoUrl isUrl
    "android.listing.videoUrl" "Invalid url" ++
  schemaCheck (1 ≤ m.android.graphics.icon.length)
    "android.graphics.icon" "App icon path is required" ++
  schemaCheck (1 ≤ m.android.graphics.featureGraphic.length)
    "android.graphics.featureGraphic" "Feature graphic path is required" ++
  schemaCheck (2 ≤ m.android.screenshots.phone.length &&
      m.android.screenshots.phone.length ≤ 8)
    "android.screenshots.phone" "Phone screenshots require at least 2 images" ++
  schemaCheckOpt m.android.screenshots.sevenInch 2 8
    "android.screenshots.sevenInch" "7-inch screenshots require at least 2 images" ++
  schemaCheckOpt m.android.screenshots.tenInch 2 8
    "android.screenshots.tenInch" "10-inch screenshots require at least 2 images"

/-- Embeds validateStoreMetadata: `storeSchema.parse` throws exactly when
there is at least one issue, in which case each issue is pushed with
severity error and valid becomes false. -/
def validateStoreMetadata (m : StoreMetadata) : ValidationResult :=
  let es := schemaIssues m
  { valid := es.isEmpty, errors := es, warnings := [] }

/-- Embeds validateMetadataCompleteness from metadata/validator.ts. Note
that the source pushes error entries but never assigns `result.valid =
false`; the embedding reproduces that faithfully. -/
def validateMetadataCompleteness (m : StoreMetadata) : ValidationResult :=
  let ios := m.ios
  let android := m.android
  let errors : List FieldError :=
    (if ios.reviewInformation.contactEmail = "" then
      [⟨"ios.reviewInformation.contactEmail", "Review contact email is required",
        Severity.error⟩] else []) ++
    (if ios.appInformation.description = "" ∨ ios.appInformation.description.length < 10 then
      [⟨"ios.appInformation.description",
        "App description must be at least 10 characters", Severity.error⟩] else []) ++
    (if ios.appInformation.privacyPolicyUrl = "" then
      [⟨"ios.appInformation.privacyPolicyUrl", "Privacy policy URL is required",
        Severity.error⟩] else []) ++
    (if ios.screenshots.iphone67.length < 3 then
      [⟨"ios.screenshots.iphone67", "At least 3 iPhone 6.7 inch screenshots are required",
        Severity.error⟩] else []) ++
    (if android.listing.title = "" ∨ 30 < android.listing.title.length then
      [⟨"android.listing.title", "Title is required and must be 30 characters or less",
        Severity.error⟩] else []) ++
    (if android.listing.privacyPolicyUrl = "" then
      [⟨"android.listing.privacyPolicyUrl", "Privacy policy URL is required",
        Severity.error⟩] else []) ++
    (if android.dataSafety.collectedData.length = 0 then
      [⟨"android.dataSafety", "Data safety information is required",
        Severity.error⟩] else [])
  let warnings : List FieldWarning :=
    if android.listing.shortDescription = "" ∨
        android.listing.shortDescription.length ≠ 80 then
      [⟨"android.listing.shortDescription",
        "Short description should be exactly 80 characters for optimal display"⟩]
    else []
  { valid := true, errors := errors, warnings := warnings }

/-- Embeds validateExportCompliance from metadata/validator.ts. -/
def validateExportCompliance (usesEncryption isExempt : Bool) : ValidationResult :=
  { valid := true, errors := [],
    warnings :=
      if usesEncryption && !isExempt then
        [⟨"ios.exportCompliance",
          "App uses encryption and is not exempt. This may require additional documentation and review time."⟩]
      else [] }

/-- Embeds validateStagedRollout from metadata/validator.ts. Note that the
source pushes an error entry on a bad production fraction but never assigns
`result.valid = false`; the embedding reproduces that faithfully. -/
def validateStagedRollout (track : String) (userFraction : Rat) : ValidationResult :=
  let errors : List FieldError :=
    if track = "production" ∧ (userFraction ≤ 0 ∨ 1 < userFraction) then
      [⟨"android.userFraction",
        "User fraction must be between 0 and 1 for production staged rollout",
        Severity.error⟩]
    else []
  let warnings : List FieldWarning :=
    if track ≠ "production" ∧ 0 < userFraction then
      [⟨"android.userFraction", "Staged rollout is only available for production track"⟩]
    else []
  { valid := true, errors := errors, warnings := warnings }

/-- Results of the remote lookups awaited inside runPreflightValidations:
the two App Store Connect calls of validateIOSVersioning and the Google
Play call of validateAndroidVersioning. -/
structure PreflightEnv where
  iosLastVersion : Except String (Option String)
  iosLastBuildNumber : Except String (Option String)
  androidLastVersionCode : Except String (Option Nat)
deriving Repr

/-- Return value of runPreflightValidations: overall validity and the six
sub-results. -/
structure PreflightOutcome where
  valid : Bool
  schema : ValidationResult
  completeness : ValidationResult
  iosVersion : VersionValidationResult
  androidVersion : AndroidVersionValidationResult
  exportCompliance : ValidationResult
  stagedRollout : ValidationResult
deriving DecidableEq, Repr

/-- Embeds runPreflightValidations from metadata/validator.ts: run the six
checks and take `valid` to be the conjunction of their `valid` flags. -/
def runPreflightValidations (m : StoreMetadata) (dryRun : Bool)
    (env : PreflightEnv) : PreflightOutcome :=
  let schema := validateStoreMetadata m
  let completeness := validateMetadataCompleteness m
  let iosVersion := validateIOSVersioning m.ios.version m.ios.buildNumber dryRun
    env.iosLastVersion env.iosLastBuildNumber
  let androidVersion := validateAndroidVersioning m.android.versionCode dryRun
    env.androidLastVersionCode
  let exportCompliance := validateExportCompliance
    m.ios.exportCompliance.usesEncryption m.ios.exportCompliance.isExempt
  let stagedRollout := validateStagedRollout (trackStr m.android.track)
    (m.android.userFraction.getD 0)
  { valid := schema.valid && completeness.valid && iosVersion.valid &&
      androidVersion.valid && exportCompliance.valid && stagedRollout.valid,
    schema := schema, completeness := completeness, iosVersion := iosVersion,
    androidVersion := androidVersion, exportCompliance := exportCompliance,
    stagedRollout := stagedRollout }

/-! ## Reporter operation sequences

One constructor per public mutator of JobStatusReporter, as invoked by the
worker and by the HTTP routes (api.publish.status.ts calls cancelJob on
externally chosen ids while the worker runs). -/

/-- One external call to a JobStatusReporter mutator. -/
inductive ReporterOp
  | create (id : String) (platform : Platform) (dryRun : Bool)
  | updStatus (id : String) (status : JobStatus)
  | progress (id : String) (code : ProgressCode) (message : String)
      (pct : Option Nat) (data : Option ProgressData)
  | log (id : String) (entry : LogEntry)
  | setResult (id : String) (r : ResultPayload)
  | cancel (id : String)
deriving Repr

/-- Apply one reporter call at clock value `now`. -/
def applyReporterOp (s : ReporterState) (now : Nat) : ReporterOp → ReporterState
  | .create id platform dryRun => JobStatusReporter.createJob s id platform dryRun now
  | .updStatus id status => JobStatusReporter.updateJobStatus s id status now
  | .progress id code message pct data =>
      JobStatusReporter.addProgress s id code message pct data now
  | .log id entry => JobStatusReporter.addLog s id entry
  | .setResult id r => JobStatusReporter.setJobResult s id r now
  | .cancel id => JobStatusReporter.cancelJob s id now

/-- Run a timed sequence of reporter calls from the empty reporter. -/
def runReporterOps (ops : List (Nat × ReporterOp)) : ReporterState :=
  ops.foldl (fun s e => applyReporterOp s e.1 e.2) ⟨[]⟩

/-- Terminal ProgressEvents are exactly those with code JOB_COMPLETED,
JOB_FAILED or JOB_CANCELLED. -/
def isTerminalEvent (p : JobProgress) : Bool :=
  p.code = ProgressCode.JOB_COMPLETED || p.code = ProgressCode.JOB_FAILED ||
    p.code = ProgressCode.JOB_CANCELLED

/-! ## Concrete instances used by the theorems below -/

/-- Successful result payload, as reported by the worker's success path. -/
def successPayload : ResultPayload :=
  { success := true, url := some "https://play.google.com/console/developers",
    version := none, errors := [], warnings := [] }

/-- Failed result payload. -/
def failPayload : ResultPayload :=
  { success := false, url := none, version := none,
    errors := ["TransientRemoteError: upload timed out"], warnings := [] }

/-- Reporter call sequence in which an externally requested cancellation
of a RUNNING job is followed by the in-flight attempt completing: create,
mark RUNNING, cancelJob (HTTP route), then the worker's setJobResult. -/
def cancelThenCompleteOps : List (Nat × ReporterOp) :=
  [ (0, ReporterOp.create "job-1" Platform.ANDROID true),
    (1, ReporterOp.updStatus "job-1" JobStatus.RUNNING),
    (2, ReporterOp.cancel "job-1"),
    (3, ReporterOp.setResult "job-1" successPayload) ]

/-- Reporter call sequence that sets a result twice on the same job. -/
def doubleResultOps : List (Nat × ReporterOp) :=
  [ (0, ReporterOp.create "job-2" Platform.IOS false),
    (1, ReporterOp.setResult "job-2" successPayload),
    (2, ReporterOp.setResult "job-2" failPayload) ]

/-- Sample submitted job: an Android production submission with the
default retry budget, fresh from the createJob factory. -/
def jobC1 : JobDefinition :=
  createJobDef "job-c1" JobType.ANDROID_SUBMIT_PRODUCTION Platform.ANDROID
    none none none none 0

/-- Worker state after submitting jobC1 to a fresh worker. -/
def workerC1 : WorkerState :=
  JobWorker.submitJob
    { queue := ⟨[], 0⟩, activeJobs := [], reporter := ⟨[]⟩,
      jobCounters := [], pendingRetries := [] } jobC1 0

/-- Result of the next scheduling tick on workerC1 when the dispatched
attempt throws a non-cancellation error. -/
def workerC1Run : WorkerState × Option JobDefinition :=
  JobWorker.processNextJob workerC1 ⟨false, false⟩ []
    (BodyOutcome.throws "TransientRemoteError: network failure") 5

/-- Sample low-priority job for the queue theorems. -/
def jobLow : JobDefinition :=
  createJobDef "job-low" JobType.VALIDATE_METADATA Platform.BOTH
    (some JobPriority.NORMAL) none none none 0

/-- Sample high-priority job for the queue theorems. -/
def jobHigh : JobDefinition :=
  createJobDef "job-high" JobType.IOS_SUBMIT_APP_STORE Platform.IOS
    (some JobPriority.CRITICAL) none none none 1

/-- Sample queue run: enqueue a NORMAL job, then a CRITICAL one. -/
def qOpsSample : List JobQueue.QOp :=
  [JobQueue.QOp.enq jobLow, JobQueue.QOp.enq jobHigh]

/-- Sample FAILED job with remaining retry budget. -/
def jobFailedBudget : JobDefinition :=
  { jobC1 with status := JobStatus.FAILED }

/-- Eighty-character short description (the Android listing schema requires
exactly 80 characters). -/
def shortDesc80 : String :=
  "Organize, plan and track all of your daily tasks with speed and full reliability"

/-- Sample metadata document that satisfies every schema refinement while
containing a staged-rollout fraction of 0 on the production track and an
empty data-safety list. -/
def sampleMeta : StoreMetadata :=
  { ios :=
    { bundleId := "com.example.app", version := "1.2.0", buildNumber := "42",
      releaseType := ReleaseType.appStore, releaseNotes := "Bug fixes",
      exportCompliance :=
        { usesEncryption := false, isExempt := false,
          encryptionAlgorithms := none, hasThirdPartyEncryption := none },
      reviewInformation :=
        { contactFirstName := "Ada", contactLastName := "Lovelace",
          contactEmail := "review@example.com", contactPhone := "1234567890",
          demoUser := none, demoPassword := none, notes := none },
      appInformation :=
        { subtitle := none, promotionalText := none,
          description := "A wonderful application for everyone.",
          keywords := ["productivity"],
          privacyPolicyUrl := "https://example.com/privacy",
          supportUrl := "https://example.com/support", marketingUrl := none },
      screenshots :=
        { iphone67 := ["s1.png", "s2.png", "s3.png"], iphone65 := none,
          iphone55 := none, ipad129 := ["p1.png", "p2.png", "p3.png"],
          ipadPro3Gen := none },
      appIcon := "icon.png", ageRating := AgeRating.age4Plus,
      signInRequired := false },
    android :=
    { packageName := "com.example.app", versionName := "1.2.0",
      versionCode := 42, track := Track.production, userFraction := some 0,
      changelogs := [("en-US", "Bug fixes")],
      listing :=
        { title := "Example", shortDescription := shortDesc80,
          fullDescription := "A full description of the application.",
          privacyPolicyUrl := "https://example.com/privacy", videoUrl := none },
      graphics :=
        { icon := "icon.png", featureGraphic := "feature.png",
          promoGraphic := none, tvBanner := none },
      screenshots :=
        { phone := ["a1.png", "a2.png"], sevenInch := none, tenInch := none,
          tv := none, wear := none },
      contentRating :=
        { category := "GENERAL", alcoholTobacco := "NONE", drugs := "NONE",
          gambling := "NONE" },
      dataSafety :=
        { collectsData := false, sharedData := none, collectedData := [] } } }

/-- Remote-lookup environment in which every store reports no previous
release. -/
def envNoRemote : PreflightEnv :=
  { iosLastVersion := Except.ok none, iosLastBuildNumber := Except.ok none,
    androidLastVersionCode := Except.ok none }

/-! ## Theorems -/

/-- C9: calculateRetryDelay(n, b) equals b * 2^n for every retry count and
base; with the default base of 1000 the delays for retry counts 0, 1 and 3
are 1000, 2000 and 8000 milliseconds. -/
theorem calculateRetryDelay_exponential :
    (∀ n b : Nat, calculateRetryDelay n b = b * 2 ^ n) ∧
    calculateRetryDelay 0 1000 = 1000 ∧
    calculateRetryDelay 1 1000 = 2000 ∧
    calculateRetryDelay 3 1000 = 8000 :=
  ⟨fun _ _ => rfl, rfl, rfl, rfl⟩

/-- C10: every JobStatusReporter operation invoked with a job id that is
not in the job map is total and leaves the reporter state unchanged:
getJob returns undefined, getJobSummary null, getJobLogs and
getJobProgress the empty list, getProgressPercentage 0, exportJobLogs the
empty string, and the five mutators return the state unmodified. -/
theorem reporter_unknown_id_total_noop (s : ReporterState) (id : String)
    (status : JobStatus) (code : ProgressCode) (msg : String) (pct : Option Nat)
    (data : Option ProgressData) (entry : LogEntry) (r : ResultPayload) (now : Nat)
    (h : JobStatusReporter.findJob s id = none) :
    JobStatusReporter.getJob s id = none ∧
    JobStatusReporter.getJobSummary s id = none ∧
    JobStatusReporter.getJobLogs s id = [] ∧
    JobStatusReporter.getJobProgress s id = [] ∧
    JobStatusReporter.getProgressPercentage s id = 0 ∧
    JobStatusReporter.exportJobLogs s id = "" ∧
    JobStatusReporter.updateJobStatus s id status now = s ∧
    JobStatusReporter.addProgress s id code msg pct data now = s ∧
    JobStatusReporter.addLog s id entry = s ∧
    JobStatusReporter.setJobResult s id r now = s ∧
    JobStatusReporter.cancelJob s id now = s := by
  refine ⟨?_, ?_, ?_, ?_, ?_, ?_, ?_, ?_, ?_, ?_, ?_⟩ <;>
    simp [JobStatusReporter.getJob, JobStatusReporter.getJobSummary,
      JobStatusReporter.getJobLogs, JobStatusReporter.getJobProgress,
      JobStatusReporter.getProgressPercentage, JobStatusReporter.exportJobLogs,
      JobStatusReporter.updateJobStatus, JobStatusReporter.addProgress,
      JobStatusReporter.addLog, JobStatusReporter.setJobResult,
      JobStatusReporter.cancelJob, h]

/-- Witness for C10 at the empty reporter and an absent id. -/
theorem reporter_unknown_id_total_noop_witness :
    JobStatusReporter.findJob ⟨[]⟩ "missing" = none ∧
    JobStatusReporter.getJob ⟨[]⟩ "missing" = none ∧
    JobStatusReporter.exportJobLogs ⟨[]⟩ "missing" = "" ∧
    JobStatusReporter.setJobResult ⟨[]⟩ "missing" successPayload 3 = ⟨[]⟩ := by
  have h : JobStatusReporter.findJob (⟨[]⟩ : ReporterState) "missing" = none := rfl
  have hm := reporter_unknown_id_total_noop ⟨[]⟩ "missing" JobStatus.QUEUED
    ProgressCode.JOB_STARTED "" none none ⟨0, LogLevel.INFO, none, "", none⟩
    successPayload 3 h
  exact ⟨h, hm.1, hm.2.2.2.2.2.1, hm.2.2.2.2.2.2.2.2.2.1⟩

/-- C2 (counter-evidence): in the reachable reporter call sequence where a
RUNNING job is cancelled (HTTP cancel route) and the still in-flight
attempt then reports success, the job ends with final status SUCCEEDED yet
carries two terminal ProgressEvents, JOB_CANCELLED followed by
JOB_COMPLETED — the terminal event is neither unique nor in agreement with
the final status, because setJobResult has no terminal-state guard. -/
theorem cancel_then_complete_two_terminal_events :
    ((JobStatusReporter.findJob (runReporterOps cancelThenCompleteOps) "job-1").map
      (fun j => (j.status, (j.progress.filter isTerminalEvent).map (fun p => p.code)))) =
    some (JobStatus.SUCCEEDED,
      [ProgressCode.JOB_CANCELLED, ProgressCode.JOB_COMPLETED]) := by
  decide

/-- C4 (counter-evidence): calling setJobResult on a job that is already
terminal with a stored result is not guarded against: the second call
overwrites the stored result, flips the terminal status from SUCCEEDED to
FAILED, and appends a second terminal ProgressEvent. -/
theorem setJobResult_overwrites_terminal_result :
    ((JobStatusReporter.findJob (runReporterOps doubleResultOps) "job-2").map
      (fun j => (j.status, j.result,
        (j.progress.filter isTerminalEvent).map (fun p => p.code)))) =
    some (JobStatus.FAILED, some failPayload,
      [ProgressCode.JOB_COMPLETED, ProgressCode.JOB_FAILED]) := by
  decide

/-- C3 (counter-evidence): on a metadata document that satisfies every
schema refinement but has a staged-rollout fraction of 0 on the production
track and an empty data-safety list, runPreflightValidations still returns
valid = true: both failing categories append severity-error entries but
never set their own valid flag to false, so the conjunction of the six
valid flags does not block the submission. -/
theorem preflight_failing_category_not_blocking :
    (runPreflightValidations sampleMeta true envNoRemote).valid = true ∧
    (runPreflightValidations sampleMeta true envNoRemote).schema.errors = [] ∧
    ((runPreflightValidations sampleMeta true envNoRemote).stagedRollout.errors.map
      (fun e => (e.field, e.severity))) =
      [("android.userFraction", Severity.error)] ∧
    (runPreflightValidations sampleMeta true envNoRemote).stagedRollout.valid = true ∧
    ((runPreflightValidations sampleMeta true envNoRemote).completeness.errors.map
      (fun e => (e.field, e.severity))) =
      [("android.dataSafety", Severity.error)] ∧
    (runPreflightValidations sampleMeta true envNoRemote).completeness.valid = true := by
  decide

/-- C6 (counter-evidence): validateStagedRollout on the production track
with userFraction 0 appends a severity-error entry for
android.userFraction but leaves valid = true, so the result does not block
submission; on a non-production track a fraction in (0,1] yields only the
warning entry. -/
theorem stagedRollout_error_entry_not_rejecting :
    validateStagedRollout "production" 0 =
      { valid := true,
        errors := [⟨"android.userFraction",
          "User fraction must be between 0 and 1 for production staged rollout",
          Severity.error⟩],
        warnings := [] } ∧
    validateStagedRollout "production" 2 =
      { valid := true,
        errors := [⟨"android.userFraction",
          "User fraction must be between 0 and 1 for production staged rollout",
          Severity.error⟩],
        warnings := [] } ∧
    validateStagedRollout "beta" (1 : Rat) =
      { valid := true, errors := [],
        warnings := [⟨"android.userFraction",
          "Staged rollout is only available for production track"⟩] } := by
  decide

/-- C1 (counter-evidence): a submitted job whose dispatched attempt throws
a non-cancellation error while retryCount (0) is below maxRetries (3) is
not retried: processJob converts the thrown error into a failed result and
immediately marks the job FAILED with a JOB_FAILED event; retryCount stays
0, the queue stays empty and no delayed re-enqueue is scheduled, because
processJob never rethrows and the retry branch in processNextJob's catch
handler is unreachable. -/
theorem worker_failure_skips_retry :
    jobC1.retryCount = 0 ∧ jobC1.maxRetries = 3 ∧
    (workerC1Run.2.map (fun j => (j.status, j.retryCount))) =
      some (JobStatus.FAILED, 0) ∧
    workerC1Run.1.queue.queue = [] ∧
    workerC1Run.1.pendingRetries = [] ∧
    ((JobStatusReporter.findJob workerC1Run.1.reporter "job-c1").map
      (fun j => (j.status, j.progress.map (fun p => p.code)))) =
    some (JobStatus.FAILED,
      [ProgressCode.JOB_STARTED, ProgressCode.JOB_FAILED]) := by
  decide

/-- JavaScript NaN-aware less-than is irreflexive. -/
theorem ltN_self (x : Option Nat) : ltN x x = false := by
  cases x <;> simp [ltN]

/-- A version string never counts as a decrease from itself. -/
theorem versionDecrease_self (v : String) : versionDecrease v v = false := by
  unfold versionDecrease
  simp [ltN_self]

/-- C7: when the remote store reports a last identifier (a non-empty last
version string with a parseable last build number on iOS, a positive last
version code on Android), submitting an identifier less than or equal to
it fails validation and the suggested next identifier is the last plus
one: validateAndroidVersioning returns valid false with
suggestedVersionCode = last + 1, and validateIOSVersioning, on the same
version string with a build number not above the last, returns valid false
with suggestedBuildNumber = last + 1. -/
theorem version_monotonicity_suggests_next
    (ver bnStr lbStr : String) (bn lb vc l : Nat) (dryRun : Bool)
    (hver : ver ≠ "")
    (hbn : parseIntJS bnStr = some bn)
    (hlbs : lbStr ≠ "")
    (hlb : parseIntJS lbStr = some lb)
    (hble : bn ≤ lb)
    (hl : 1 ≤ l) (hvc : vc ≤ l) :
    ((validateIOSVersioning ver bnStr dryRun (Except.ok (some ver))
        (Except.ok (some lbStr))).valid = false ∧
     (validateIOSVersioning ver bnStr dryRun (Except.ok (some ver))
        (Except.ok (some lbStr))).suggestedBuildNumber = some (toString (lb + 1))) ∧
    ((validateAndroidVersioning vc dryRun (Except.ok (some l))).valid = false ∧
     (validateAndroidVersioning vc dryRun (Except.ok (some l))).suggestedVersionCode
        = some (l + 1)) := by
  have hl0 : l ≠ 0 := by omega
  constructor
  · simp [validateIOSVersioning, strTruthy, orZeroStr, hver, hlbs, hbn, hlb, hble,
      versionDecrease_self]
  · simp [validateAndroidVersioning, hl0, hvc]

/-- Witness for C7: resubmitting build number 2 over last build 2 of the
same version suggests build 3; resubmitting version code 5 over last code
5 suggests 6. -/
theorem version_monotonicity_suggests_next_witness :
    (validateIOSVersioning "1.2.0" "2" true (Except.ok (some "1.2.0"))
        (Except.ok (some "2"))).suggestedBuildNumber = some "3" ∧
    (validateAndroidVersioning 5 true (Except.ok (some 5))).suggestedVersionCode
      = some 6 := by
  have h := version_monotonicity_suggests_next "1.2.0" "2" "2" 2 2 5 5 true
    (by decide) (by decide) (by decide) (by decide) (by decide) (by decide) (by decide)
  exact ⟨h.1.2.trans (by decide), h.2.2⟩

/-- One worker mutation never decreases retryCount, never changes maxRetries,
and preserves the retry bound (the only increment site is guarded by
shouldRetryJob). -/
theorem jobMutation_retry_step {j j1 : JobDefinition} (h : JobMutation j j1) :
    j.retryCount ≤ j1.retryCount ∧ j1.maxRetries = j.maxRetries ∧
    (j.retryCount ≤ j.maxRetries → j1.retryCount ≤ j1.maxRetries) := by
  cases h with
  | catchRetry hg =>
    have hlt : j.retryCount < j.maxRetries := by
      simp [shouldRetryJob, Bool.and_eq_true, decide_eq_true_eq] at hg
      exact hg.1
    exact ⟨Nat.le_succ _, rfl, fun _ => hlt⟩
  | cancelAtStart => exact ⟨le_refl _, rfl, id⟩
  | markRunning now => exact ⟨le_refl _, rfl, id⟩
  | cancelInCatch => exact ⟨le_refl _, rfl, id⟩
  | succeed now data => exact ⟨le_refl _, rfl, id⟩
  | fail now err => exact ⟨le_refl _, rfl, id⟩
  | retryRequeue => exact ⟨le_refl _, rfl, id⟩
  | catchFail hg => exact ⟨le_refl _, rfl, id⟩

/-- C5: along every sequence of worker mutations of a job record,
retryCount is monotonically non-decreasing and, once within its maxRetries
bound (as it is at creation, where retryCount is 0), it never exceeds
maxRetries; moreover a failure handled with retryCount already equal to
maxRetries takes the non-retry branch: shouldRetryJob is false and the
catch handler forces terminal FAILED without touching retryCount and
without scheduling any re-enqueue. -/
theorem retryCount_monotone_bounded (j0 j1 : JobDefinition)
    (h : Relation.ReflTransGen JobMutation j0 j1) :
    (j0.retryCount ≤ j1.retryCount ∧ j1.maxRetries = j0.maxRetries ∧
      (j0.retryCount ≤ j0.maxRetries → j1.retryCount ≤ j1.maxRetries)) ∧
    (∀ (st : WorkerState) (errMsg : String) (now : Nat),
      j1.retryCount = j1.maxRetries →
        shouldRetryJob j1 = false ∧
        (JobWorker.processJobCatch st j1 errMsg now).2.status = JobStatus.FAILED ∧
        (JobWorker.processJobCatch st j1 errMsg now).2.retryCount = j1.retryCount ∧
        (JobWorker.processJobCatch st j1 errMsg now).1.pendingRetries
          = st.pendingRetries) := by
  constructor
  · induction h with
    | refl => exact ⟨le_refl _, rfl, id⟩
    | tail hab hbc ih =>
      have hs := jobMutation_retry_step hbc
      exact ⟨ih.1.trans hs.1, hs.2.1.trans ih.2.1, fun hb => hs.2.2 (ih.2.2 hb)⟩
  · intro st errMsg now heq
    have hs : shouldRetryJob j1 = false := by
      simp [shouldRetryJob, heq]
    refine ⟨hs, ?_, ?_, ?_⟩ <;> simp [JobWorker.processJobCatch, hs]

/-- Witness for C5: a FAILED job with retryCount 2 of 3 steps to
retryCount 3 by the guarded increment, and the catch handler on the
exhausted job forces FAILED. -/
theorem retryCount_monotone_bounded_witness :
    ({ jobFailedBudget with retryCount := 2 } : JobDefinition).retryCount ≤
      ({ jobFailedBudget with retryCount := 3 } : JobDefinition).retryCount ∧
    (JobWorker.processJobCatch ⟨⟨[], 0⟩, [], ⟨[]⟩, [], []⟩
        { jobFailedBudget with retryCount := 3 } "boom" 7).2.status
      = JobStatus.FAILED := by
  have h := retryCount_monotone_bounded { jobFailedBudget with retryCount := 2 }
    { jobFailedBudget with retryCount := 3 }
    (Relation.ReflTransGen.single
      (JobMutation.catchRetry { jobFailedBudget with retryCount := 2 } (by decide)))
  exact ⟨h.1.1, (h.2 ⟨⟨[], 0⟩, [], ⟨[]⟩, [], []⟩ "boom" 7 (by decide)).2.1⟩

namespace JobQueue

/-- Inserting an element permutes it to the front of the list. -/
theorem insertJob_perm (p : Entry) (l : List Entry) :
    (insertJob p l).Perm (p :: l) := by
  induction l with
  | nil => simp [insertJob]
  | cons q qs ih =>
    by_cases hq : q.2.priority ≤ p.2.priority
    · simp [insertJob, hq]
    · simp only [insertJob, if_neg hq]
      exact (ih.cons q).trans (List.Perm.swap p q qs)

/-- Membership through insertion. -/
theorem mem_insertJob {x p : Entry} {l : List Entry} :
    x ∈ insertJob p l ↔ x = p ∨ x ∈ l := by
  rw [(insertJob_perm p l).mem_iff]
  simp

/-- The stable sort is a permutation: it reorders the stored job records
and never alters one. -/
theorem sortByPriority_perm (l : List Entry) : (sortByPriority l).Perm l := by
  induction l with
  | nil => simp [sortByPriority]
  | cons x xs ih => exact (insertJob_perm x _).trans (ih.cons x)

/-- Inserting an element into an rlex-ordered list keeps it ordered,
provided the element carries a later tag than every equal-priority
entry. -/
theorem insertJob_sorted (p : Entry) (l : List Entry)
    (hl : l.Pairwise rlex)
    (hp : ∀ q ∈ l, q.2.priority = p.2.priority → p.1 < q.1) :
    (insertJob p l).Pairwise rlex := by
  induction l with
  | nil => simp [insertJob, rlex]
  | cons q qs ih =>
    rcases List.pairwise_cons.mp hl with ⟨hq_all, hqs⟩
    by_cases hq : q.2.priority ≤ p.2.priority
    · simp only [insertJob, if_pos hq]
      refine List.Pairwise.cons ?_ hl
      intro y hy
      have hyle : y.2.priority ≤ p.2.priority := by
        rcases List.mem_cons.mp hy with rfl | hy2
        · exact hq
        · rcases hq_all y hy2 with h1 | ⟨h2, _⟩
          · exact (le_of_lt h1).trans hq
          · exact h2 ▸ hq
      rcases lt_or_eq_of_le hyle with hlt | heq
      · exact Or.inl hlt
      · exact Or.inr ⟨heq, hp y hy heq⟩
    · simp only [insertJob, if_neg hq]
      refine List.Pairwise.cons ?_
        (ih hqs (fun y hy => hp y (List.mem_cons_of_mem q hy)))
      intro y hy
      rcases mem_insertJob.mp hy with rfl | hy2
      · exact Or.inl (lt_of_not_le hq)
      · exact hq_all y hy2

/-- Sorting any array whose equal-priority entries already appear in
increasing tag order produces an rlex-ordered array (stability of the
sort). -/
theorem sortByPriority_sorted (l : List Entry)
    (hstab : l.Pairwise (fun a b => b.2.priority = a.2.priority → a.1 < b.1)) :
    (sortByPriority l).Pairwise rlex := by
  induction l with
  | nil => simp [sortByPriority]
  | cons x xs ih =>
    rcases List.pairwise_cons.mp hstab with ⟨hx, hxs⟩
    refine insertJob_sorted x _ (ih hxs) ?_
    intro q hq
    exact hx q ((sortByPriority_perm xs).mem_iff.mp hq)

/-- enqueue preserves the queue invariant. -/
theorem qinv_enqueue {s : QState} (h : QInv s) (j : JobDefinition) :
    QInv (enqueue s j) := by
  obtain ⟨hsort, htag⟩ := h
  constructor
  · apply sortByPriority_sorted
    apply List.pairwise_append.mpr
    refine ⟨?_, ?_, ?_⟩
    · refine hsort.imp ?_
      intro a b hab heq
      rcases hab with h1 | ⟨h2, h3⟩
      · exact absurd heq (by omega)
      · exact h3
    · simp
    · intro a ha b hb heq
      have hb2 : b = (s.nextTag, j) := by simpa using hb
      subst hb2
      exact htag a ha
  · intro p hp
    have hmem : p ∈ s.queue ++ [(s.nextTag, j)] :=
      (sortByPriority_perm _).mem_iff.mp hp
    rcases List.mem_append.mp hmem with h1 | h2
    · exact lt_trans (htag p h1) (Nat.lt_succ_self _)
    · have : p = (s.nextTag, j) := by simpa using h2
      subst this
      exact Nat.lt_succ_self _

/-- dequeue preserves the queue invariant. -/
theorem qinv_dequeue {s : QState} (h : QInv s) : QInv (dequeue s).1 := by
  obtain ⟨hsort, htag⟩ := h
  cases hsq : s.queue with
  | nil =>
    simp only [dequeue, hsq]
    exact ⟨hsq ▸ hsort, hsq ▸ htag⟩
  | cons x xs =>
    simp only [dequeue, hsq]
    constructor
    · exact (List.pairwise_cons.mp (hsq ▸ hsort)).2
    · intro p hp
      exact htag p (hsq ▸ List.mem_cons_of_mem x hp)

/-- Every state reachable by a sequence of queue operations satisfies the
invariant. -/
theorem qinv_runQ (ops : List QOp) : QInv (runQ ops) := by
  suffices h : ∀ s, QInv s → QInv (ops.foldl stepQ s) from
    h ⟨[], 0⟩ ⟨List.Pairwise.nil, by simp⟩
  induction ops with
  | nil => exact fun s hs => hs
  | cons op ops ih =>
    intro s hs
    apply ih
    cases op with
    | enq j => exact qinv_enqueue hs j
    | deq => exact qinv_dequeue hs

end JobQueue

/-- C8: after any sequence of enqueue and dequeue operations, dequeue on
an empty queue returns the state unchanged with no job; on a non-empty
queue it removes and returns the front entry, which has maximal numeric
priority among all pending entries and, among remaining entries of equal
priority, the earliest enqueue tag (stable FIFO order within a priority);
and enqueue merely permutes the new entry into the stored entries, so
neither operation modifies any job record (in particular no status
field). -/
theorem jobQueue_dequeue_priority_stable (ops : List JobQueue.QOp) :
    ((JobQueue.runQ ops).queue = [] →
      JobQueue.dequeue (JobQueue.runQ ops) = (JobQueue.runQ ops, none)) ∧
    (∀ x xs, (JobQueue.runQ ops).queue = x :: xs →
      (JobQueue.dequeue (JobQueue.runQ ops)).2 = some x ∧
      (JobQueue.dequeue (JobQueue.runQ ops)).1.queue = xs ∧
      (∀ p ∈ (JobQueue.runQ ops).queue, p.2.priority ≤ x.2.priority) ∧
      (∀ p ∈ xs, p.2.priority = x.2.priority → x.1 < p.1)) ∧
    (∀ j, (JobQueue.enqueue (JobQueue.runQ ops) j).queue.Perm
      (((JobQueue.runQ ops).nextTag, j) :: (JobQueue.runQ ops).queue)) := by
  obtain ⟨hsort, htag⟩ := JobQueue.qinv_runQ ops
  refine ⟨?_, ?_, ?_⟩
  · intro he
    simp [JobQueue.dequeue, he]
  · intro x xs hx
    have hpc := List.pairwise_cons.mp (hx ▸ hsort)
    refine ⟨by simp [JobQueue.dequeue, hx], by simp [JobQueue.dequeue, hx], ?_, ?_⟩
    · intro p hp
      rw [hx] at hp
      rcases List.mem_cons.mp hp with rfl | hp2
      · exact le_refl _
      · rcases hpc.1 p hp2 with h1 | ⟨h2, _⟩
        · exact le_of_lt h1
        · exact le_of_eq h2
    · intro p hp heq
      rcases hpc.1 p hp with h1 | ⟨h2, h3⟩
      · exact absurd heq (by omega)
      · exact h3
  · intro j
    exact (JobQueue.sortByPriority_perm _).trans
      (List.perm_append_singleton _ _)

/-- Witness for C8: enqueueing a NORMAL then a CRITICAL job, the CRITICAL
job is dequeued first. -/
theorem jobQueue_dequeue_priority_stable_witness :
    (JobQueue.dequeue (JobQueue.runQ qOpsSample)).2 = some (1, jobHigh) := by
  have h := (jobQueue_dequeue_priority_stable qOpsSample).2.1 (1, jobHigh)
    [(0, jobLow)] (by decide)
  exact h.1

end Devonz
